import Mathlib

/-!
Shallow embedding of the out-of-level alarm firmware
(`src/src/main.c`, `src/include/main.h`, `src/lib/LED/led.c`).

Numeric conventions: the C `float` values (angles, speed) enter the level
monitor only through comparisons, so they are modelled as exact rationals;
the brightness mapper's float arithmetic is modelled as exact rational
arithmetic with the C float-to-int conversion (truncation toward zero)
made explicit.  The static `uint8_t` state of `is_out_of_level` is made an
explicit argument and result (explicit state passing).
-/

/-- Build-time threshold configuration (`parameters.h`, referenced from
`main.c` but not present under `src/`): `threshold_angle` in degrees and the
armed speed band `[lower_speed, upper_speed]` in m/s. -/
structure Config where
  threshold_angle : ℚ
  lower_speed : ℚ
  upper_speed : ℚ

/-- Value of `out_of_level_t.initial_state` (`include/main.h` line 21). -/
def initial_state : Nat := 1

/-- Value of `out_of_level_t.threshold_angle_and_speed` (`include/main.h` line 22). -/
def threshold_angle_and_speed : Nat := 2

/-- Embedding of `is_out_of_level` (`src/src/main.c` lines 161-197).
The static `uint8_t state` (zero-initialized, so `0` on the first call)
becomes the `state` argument; the function returns the `out_of_level`
boolean together with the state left behind for the next call.
`combined_angle` stands for `sqrt(x^2 + y^2)` as computed from the sampled
angles; the function body itself only compares it against the thresholds. -/
def is_out_of_level (cfg : Config) (combined_angle speed : ℚ) (state : Nat) : Bool × Nat :=
  let state := if state = 0 then initial_state else state
  if state = initial_state then
    if combined_angle ≥ cfg.threshold_angle ∧ (speed ≥ cfg.lower_speed ∧ speed ≤ cfg.upper_speed) then
      (true, threshold_angle_and_speed)
    else
      (false, state)
  else if state = threshold_angle_and_speed then
    if combined_angle < cfg.threshold_angle ∧ (speed < cfg.lower_speed ∧ speed > cfg.upper_speed) then
      (false, initial_state)
    else
      (true, state)
  else
    (false, state)

/-- Iterated calls to `is_out_of_level`: for each `(combined_angle, speed)`
input in turn, record the returned boolean and the persisted state right
after that call. -/
def monitorTrace (cfg : Config) (state : Nat) : List (ℚ × ℚ) → List (Bool × Nat)
  | [] => []
  | (ca, s) :: rest =>
    let r := is_out_of_level cfg ca s state
    r :: monitorTrace cfg r.2 rest

/-- C conversion from a floating value to `int`: truncation toward zero. -/
def truncToInt (q : ℚ) : ℤ :=
  if 0 ≤ q then ⌊q⌋ else ⌈q⌉

/-- Embedding of `raw_ADC_to_LED_val` (`src/src/main.c` lines 134-146):
`intermediate = (raw - 500)/2598.0`, clamped above at `1`, then below at
`0.1`, then scaled by `1023` and converted to `int`. -/
def raw_ADC_to_LED_val (raw_ADC_reading : ℤ) : ℤ :=
  let intermediate : ℚ := ((raw_ADC_reading : ℚ) - 500) / 2598
  let intermediate := if intermediate > 1 then 1 else intermediate
  let intermediate := if intermediate < 1/10 then 1/10 else intermediate
  truncToInt (intermediate * 1023)

/-- The `is_led_on` / `led_toggle` logic of `led_alarm_handler`
(`src/lib/LED/led.c` lines 8-65), abstracting away the PWM duty register
writes: given the current `led_on` request and the static `uint8_t
led_toggle` (zero-initialized), return the `is_led_on` value written back
to main together with the new toggle. -/
def led_alarm_handler (led_on : Bool) (led_toggle : Nat) : Bool × Nat :=
  let led_toggle := led_toggle % 256
  let led_toggle := if led_toggle = 0 then 1 else led_toggle
  if led_on then
    (decide (led_toggle / 2 ≠ 0), Nat.xor led_toggle 2)
  else
    (false, led_toggle)

/-- Environment observed by one iteration of the production loop body
(`src/src/main.c` lines 88-94): the value of the shared `is_led_on` flag
at the line-88 gate (last value written by the asynchronous
`led_alarm_handler` timer callback), the `photoresist_read` result, and
the sampled combined angle and speed. -/
structure TickEnv where
  is_led_on : Bool
  light : ℤ
  combined_angle : ℚ
  speed : ℚ

/-- Loop-carried program state of `app_main`'s loop: the level monitor's
static state, `led_on_val` and `led_on`. -/
structure LoopState where
  monitor_state : Nat
  led_on_val : ℤ
  led_on : Bool
deriving DecidableEq

/-- One iteration of the production loop body (`src/src/main.c` lines
88-94): recompute `led_on_val` only when `is_led_on == false`, then call
`is_out_of_level` on the fresh angle/speed sample. -/
def loop_tick (cfg : Config) (st : LoopState) (env : TickEnv) : LoopState :=
  let led_on_val := if env.is_led_on = false then raw_ADC_to_LED_val env.light else st.led_on_val
  let r := is_out_of_level cfg env.combined_angle env.speed st.monitor_state
  { monitor_state := r.2, led_on_val := led_on_val, led_on := r.1 }

/-- Run the loop body over a sequence of per-tick environments. -/
def loop_run (cfg : Config) (st : LoopState) : List TickEnv → LoopState
  | [] => st
  | e :: es => loop_run cfg (loop_tick cfg st e) es

/-- The four external collaborators of `app_main`, in acquisition order:
BNO055 IMU, M20048 GPS (NMEA), photoresistor ADC, LED timer/PWM. -/
inductive Collab
  | bno055
  | m20048
  | photoresist
  | led
deriving DecidableEq

/-- The `esp_err_t` results of the four init calls (`src/src/main.c`
lines 54-64); `0` stands for `ESP_OK`. -/
structure InitResults where
  bno055_init : ℤ
  m20048_init : ℤ
  photoresist_init : ℤ
  led_init : ℤ

/-- Setup portion of `app_main` (`src/src/main.c` lines 54-64): each init
that returns non-`ESP_OK` jumps (`goto end_prog`) past the `while(true)`
loop.  Returns whether the loop is reached, together with the list of
collaborators whose init succeeded, in acquisition order. -/
def app_main_setup (e : InitResults) : Bool × List Collab :=
  if e.bno055_init ≠ 0 then (false, [])
  else if e.m20048_init ≠ 0 then (false, [.bno055])
  else if e.photoresist_init ≠ 0 then (false, [.bno055, .m20048])
  else if e.led_init ≠ 0 then (false, [.bno055, .m20048, .photoresist])
  else (true, [.bno055, .m20048, .photoresist, .led])

/-- The `esp_err_t` results of the five teardown calls made at `end_prog`. -/
structure DeinitResults where
  bno055_close : ℤ
  nmea_remove_handler : ℤ
  nmea_deinit : ℤ
  photoresist_deinit : ℤ
  led_deinit : ℤ

/-- Exit portion of `app_main` (`src/src/main.c` lines 102-118): a single
straight-line block that unconditionally performs all five teardown calls
— `bno055_close`, `nmea_parser_remove_handler`, `nmea_parser_deinit`,
`photoresist_deinit`, `led_deinit` — logging each result and never
branching on it.  Returns the logged sequence of (collaborator, result). -/
def app_main_teardown (d : DeinitResults) : List (Collab × ℤ) :=
  [(.bno055, d.bno055_close), (.m20048, d.nmea_remove_handler), (.m20048, d.nmea_deinit),
   (.photoresist, d.photoresist_deinit), (.led, d.led_deinit)]

/-! ### Unfolding lemmas for the level monitor's three switch cases -/

/-- First call: the zero-initialized static state is rewritten to
`initial_state` before the switch. -/
theorem monitor_zero_step (cfg : Config) (ca s : ℚ) :
    is_out_of_level cfg ca s 0 = is_out_of_level cfg ca s initial_state := rfl

/-- The `case initial_state` arm of the switch. -/
theorem monitor_normal_step (cfg : Config) (ca s : ℚ) :
    is_out_of_level cfg ca s initial_state =
      if ca ≥ cfg.threshold_angle ∧ (s ≥ cfg.lower_speed ∧ s ≤ cfg.upper_speed) then
        (true, threshold_angle_and_speed)
      else
        (false, initial_state) := rfl

/-- The `case threshold_angle_and_speed` arm of the switch. -/
theorem monitor_alarm_step (cfg : Config) (ca s : ℚ) :
    is_out_of_level cfg ca s threshold_angle_and_speed =
      if ca < cfg.threshold_angle ∧ (s < cfg.lower_speed ∧ s > cfg.upper_speed) then
        (false, initial_state)
      else
        (true, threshold_angle_and_speed) := rfl

/-- The `default` arm of the switch: any state other than `0`, `1`, `2`
is returned unchanged with output `false`. -/
theorem monitor_default_step (cfg : Config) (ca s : ℚ) (st : Nat)
    (h0 : st ≠ 0) (h1 : st ≠ initial_state) (h2 : st ≠ threshold_angle_and_speed) :
    is_out_of_level cfg ca s st = (false, st) := by
  unfold is_out_of_level
  rw [if_neg h0, if_neg h1, if_neg h2]

/-- With `lower_speed ≤ upper_speed` the ALARM arm's recovery condition
`speed < lower_speed ∧ speed > upper_speed` is unsatisfiable, so one step
from the ALARM state always yields `(true, ALARM)`. -/
theorem monitor_alarm_step_sticky (cfg : Config) (h : cfg.lower_speed ≤ cfg.upper_speed)
    (ca s : ℚ) :
    is_out_of_level cfg ca s threshold_angle_and_speed = (true, threshold_angle_and_speed) := by
  rw [monitor_alarm_step, if_neg]
  rintro ⟨-, hlo, hhi⟩
  exact lt_asymm (hlo.trans_le h) hhi

/-- C1: for every threshold configuration with `lower_speed ≤ upper_speed`,
once `is_out_of_level` has entered the ALARM state, every subsequent call
returns `true` and the state never returns to NORMAL, for all angle and
speed inputs: the recovery condition as written is unsatisfiable, so the
alarm is permanently sticky once triggered. -/
theorem alarm_permanently_sticky (cfg : Config) (h : cfg.lower_speed ≤ cfg.upper_speed)
    (inputs : List (ℚ × ℚ)) :
    monitorTrace cfg threshold_angle_and_speed inputs =
      inputs.map fun _ => (true, threshold_angle_and_speed) := by
  induction inputs with
  | nil => rfl
  | cons p rest ih =>
    obtain ⟨ca, s⟩ := p
    simp only [monitorTrace, List.map_cons]
    rw [monitor_alarm_step_sticky cfg h]
    exact congrArg _ ih

/-- Witness for C1 at `cfg = ⟨4, 2, 10⟩` and two concrete inputs. -/
theorem alarm_permanently_sticky_witness :
    (2 : ℚ) ≤ 10 ∧
    monitorTrace ⟨4, 2, 10⟩ threshold_angle_and_speed [(0, 0), (100, 3)] =
      [(true, threshold_angle_and_speed), (true, threshold_angle_and_speed)] :=
  ⟨by norm_num, alarm_permanently_sticky ⟨4, 2, 10⟩ (by norm_num) [(0, 0), (100, 3)]⟩

/-- C2: starting from the NORMAL state, `is_out_of_level` returns `true`
and moves to ALARM exactly when `combined_angle ≥ threshold_angle` and
`lower_speed ≤ speed ≤ upper_speed`; on every other input it returns
`false` and the state remains NORMAL. -/
theorem evaluate_from_normal (cfg : Config) (ca s : ℚ) :
    is_out_of_level cfg ca s initial_state =
      if ca ≥ cfg.threshold_angle ∧ (cfg.lower_speed ≤ s ∧ s ≤ cfg.upper_speed) then
        (true, threshold_angle_and_speed)
      else
        (false, initial_state) := rfl

/-- C3: in the ALARM state, `is_out_of_level` returns `false` and moves
back to NORMAL exactly when `combined_angle < threshold_angle` and
`speed < lower_speed` and `speed > upper_speed` (the recovery condition
as the spec states it); on every other input it returns `true` and the
state stays ALARM (no chatter). -/
theorem evaluate_from_alarm (cfg : Config) (ca s : ℚ) :
    is_out_of_level cfg ca s threshold_angle_and_speed =
      if ca < cfg.threshold_angle ∧ (s < cfg.lower_speed ∧ s > cfg.upper_speed) then
        (false, initial_state)
      else
        (true, threshold_angle_and_speed) := rfl

/-- C8: `is_out_of_level` is pure given the state, and its step is
idempotent: from every starting state (including the zero-initialized
first-call state and out-of-range states) and for every input, a second
call with identical inputs returns the same boolean and leaves the state
reached by the first call unchanged. -/
theorem evaluate_idempotent (cfg : Config) (ca s : ℚ) (st : Nat) :
    is_out_of_level cfg ca s (is_out_of_level cfg ca s st).2 =
      is_out_of_level cfg ca s st := by
  have normal : is_out_of_level cfg ca s (is_out_of_level cfg ca s initial_state).2 =
      is_out_of_level cfg ca s initial_state := by
    rw [monitor_normal_step]
    split_ifs with hc
    · show is_out_of_level cfg ca s threshold_angle_and_speed = _
      rw [monitor_alarm_step, if_neg]
      rintro ⟨hlt, -⟩
      exact absurd hlt (not_lt.mpr hc.1)
    · show is_out_of_level cfg ca s initial_state = _
      rw [monitor_normal_step, if_neg hc]
  by_cases h0 : st = 0
  · subst h0
    rw [monitor_zero_step]
    exact normal
  · by_cases h1 : st = initial_state
    · subst h1
      exact normal
    · by_cases h2 : st = threshold_angle_and_speed
      · subst h2
        rw [monitor_alarm_step]
        split_ifs with hc
        · show is_out_of_level cfg ca s initial_state = _
          rw [monitor_normal_step, if_neg]
          rintro ⟨hge, -⟩
          exact absurd hc.1 (not_lt.mpr hge)
        · show is_out_of_level cfg ca s threshold_angle_and_speed = _
          rw [monitor_alarm_step, if_neg hc]
      · rw [monitor_default_step cfg ca s st h0 h1 h2]
        exact monitor_default_step cfg ca s st h0 h1 h2

/-- The invariant of C9, as a decidable check on one (output, state) pair:
the persisted state is one of the two `out_of_level_t` enumerators, and
the returned boolean equals `state == threshold_angle_and_speed`. -/
def monitorInv (p : Bool × Nat) : Bool :=
  (p.2 == initial_state || p.2 == threshold_angle_and_speed) &&
  (p.1 == (p.2 == threshold_angle_and_speed))

/-- One step from any reachable state (`0` before the first call, or one
of the two enumerators) satisfies `monitorInv` and lands on an
enumerator, so the switch's `default` arm is never selected. -/
theorem monitor_step_inv (cfg : Config) (ca s : ℚ) (st : Nat)
    (h : st = 0 ∨ st = initial_state ∨ st = threshold_angle_and_speed) :
    monitorInv (is_out_of_level cfg ca s st) = true ∧
      ((is_out_of_level cfg ca s st).2 = initial_state ∨
       (is_out_of_level cfg ca s st).2 = threshold_angle_and_speed) := by
  rcases h with rfl | rfl | rfl
  · rw [monitor_zero_step, monitor_normal_step]
    split_ifs <;> exact ⟨by decide, by decide⟩
  · rw [monitor_normal_step]
    split_ifs <;> exact ⟨by decide, by decide⟩
  · rw [monitor_alarm_step]
    split_ifs <;> exact ⟨by decide, by decide⟩

/-- `monitorInv` holds along every trace started from a reachable state. -/
theorem monitor_trace_inv (cfg : Config) (inputs : List (ℚ × ℚ)) : ∀ st : Nat,
    st = 0 ∨ st = initial_state ∨ st = threshold_angle_and_speed →
    ((monitorTrace cfg st inputs).all monitorInv) = true := by
  induction inputs with
  | nil => intro st _; rfl
  | cons p rest ih =>
    intro st h
    obtain ⟨ca, s⟩ := p
    simp only [monitorTrace, List.all_cons, Bool.and_eq_true]
    obtain ⟨h1, h2⟩ := monitor_step_inv cfg ca s st h
    exact ⟨h1, ih _ (Or.inr h2)⟩

/-- C9: along every sequence of calls started from the zero-initialized
static state, after every call (the first included) the persisted state is
one of the two enum values `initial_state` (1) or
`threshold_angle_and_speed` (2) — so the switch's `default` branch is
unreachable — and the returned boolean always equals
`state == threshold_angle_and_speed`. -/
theorem monitor_state_enum_invariant (cfg : Config) (inputs : List (ℚ × ℚ)) :
    ((monitorTrace cfg 0 inputs).all monitorInv) = true :=
  monitor_trace_inv cfg inputs 0 (Or.inl rfl)

/-! ### Control loop: the brightness recompute gate (C4) -/

theorem loop_run_append (cfg : Config) (st : LoopState) (xs ys : List TickEnv) :
    loop_run cfg st (xs ++ ys) = loop_run cfg (loop_run cfg st xs) ys := by
  induction xs generalizing st with
  | nil => rfl
  | cons e es ih => simpa only [List.cons_append, loop_run] using ih (loop_tick cfg st e)

/-- C4 (amended): at every tick, `led_on_val` is recomputed from the fresh
light sample exactly when the shared `is_led_on` flag — the LED's
instantaneous on/off state as last written by the timer callback — reads
`false` at that tick's line-88 gate; when it reads `true` the brightness
level is left unchanged from the preceding tick.  The gate is this flag,
not the previous tick's alarm output `led_on`. -/
theorem brightness_recompute_gate (cfg : Config) (st : LoopState)
    (envs : List TickEnv) (e : TickEnv) :
    (loop_run cfg st (envs ++ [e])).led_on_val =
      if e.is_led_on then (loop_run cfg st envs).led_on_val
      else raw_ADC_to_LED_val e.light := by
  rw [loop_run_append]
  show (loop_tick cfg (loop_run cfg st envs) e).led_on_val = _
  cases he : e.is_led_on <;> simp [loop_tick, he]

/-- Threshold configuration used in the C4 counterexample:
`threshold_angle = 4`, armed speed band `[2, 10]`. -/
def cexConfig : Config := ⟨4, 2, 10⟩

/-- Initial loop state: zero-initialized monitor state, `led_on_val = 0`,
`led_on = false`. -/
def cexStart : LoopState := ⟨0, 0, false⟩

/-- Tick 1 environment: the timer callback has reported the LED on
(`is_led_on = true`), and the samples `combined_angle = 5`, `speed = 5`
put the monitor into ALARM. -/
def cexTick1 : TickEnv := ⟨true, 1000, 5, 5⟩

/-- Tick 2 environment: between the ticks the timer callback ran in the
off phase of the flash and wrote `is_led_on = false`; the light sensor
reads 2450. -/
def cexTick2 : TickEnv := ⟨false, 2450, 5, 5⟩

/-- C4 counterexample: a two-tick run in which tick 1's alarm output is
`true` (both the `led_on` result and the observed `is_led_on` flag), yet
tick 2 recomputes the brightness level (from 0 to 767), because the timer
callback — which alternates `is_led_on` while the alarm is requested, as
the `led_alarm_handler` equations show — reported the LED off in between.
So brightness recomputation on a tick immediately following a tick whose
alarm output was `true` does occur. -/
theorem brightness_recompute_counterexample :
    cexTick1.is_led_on = true ∧
    (loop_tick cexConfig cexStart cexTick1).led_on = true ∧
    (loop_tick cexConfig cexStart cexTick1).led_on_val = 0 ∧
    led_alarm_handler true 3 = (true, 1) ∧
    led_alarm_handler true 1 = (false, 3) ∧
    (loop_run cexConfig cexStart [cexTick1, cexTick2]).led_on_val = 767 := by
  have h1 : loop_tick cexConfig cexStart cexTick1 = ⟨2, 0, true⟩ := by decide
  refine ⟨rfl, by decide, by decide, by decide, by decide, ?_⟩
  show (loop_tick cexConfig (loop_tick cexConfig cexStart cexTick1) cexTick2).led_on_val = 767
  rw [h1]
  show raw_ADC_to_LED_val 2450 = 767
  unfold raw_ADC_to_LED_val truncToInt
  norm_num

/-! ### Setup and teardown of app_main (C5) -/

/-- C5 (amended): if any collaborator's initialization fails, the main
loop is never entered and control reaches the single `end_prog` exit path;
that path unconditionally performs the full teardown sequence for all
collaborators in acquisition (program) order — `bno055_close`,
`nmea_parser_remove_handler`, `nmea_parser_deinit`, `photoresist_deinit`,
`led_deinit` — logging every individual result and proceeding through all
collaborators regardless of individual deinitialization failures. -/
theorem init_failure_skips_loop_and_runs_full_teardown
    (e : InitResults) (d : DeinitResults)
    (h : e.bno055_init ≠ 0 ∨ e.m20048_init ≠ 0 ∨ e.photoresist_init ≠ 0 ∨ e.led_init ≠ 0) :
    (app_main_setup e).1 = false ∧
    (app_main_teardown d).map Prod.fst =
      [.bno055, .m20048, .m20048, .photoresist, .led] ∧
    (app_main_teardown d).map Prod.snd =
      [d.bno055_close, d.nmea_remove_handler, d.nmea_deinit,
       d.photoresist_deinit, d.led_deinit] := by
  refine ⟨?_, rfl, rfl⟩
  unfold app_main_setup
  split_ifs <;> first | rfl | tauto

/-- Witness for C5 (amended) where the first init fails and every
teardown call also fails. -/
theorem init_failure_skips_loop_witness :
    ((1 : ℤ) ≠ 0 ∨ (0 : ℤ) ≠ 0 ∨ (0 : ℤ) ≠ 0 ∨ (0 : ℤ) ≠ 0) ∧
    (app_main_setup ⟨1, 0, 0, 0⟩).1 = false ∧
    (app_main_teardown ⟨-1, -1, -1, -1, -1⟩).map Prod.fst =
      [.bno055, .m20048, .m20048, .photoresist, .led] :=
  ⟨Or.inl (by decide),
   (init_failure_skips_loop_and_runs_full_teardown ⟨1, 0, 0, 0⟩ ⟨-1, -1, -1, -1, -1⟩
     (Or.inl (by decide))).1,
   (init_failure_skips_loop_and_runs_full_teardown ⟨1, 0, 0, 0⟩ ⟨-1, -1, -1, -1, -1⟩
     (Or.inl (by decide))).2.1⟩

/-- C5 counterexample: with only `led_init` failing, the loop is indeed
not entered and the initialized collaborators are exactly
`[bno055, m20048, photoresist]`; but the teardown sequence is not "every
already-initialized collaborator in reverse acquisition order": it
includes `led` (never initialized), it starts with `bno055` (the first
acquired), and it differs from the reverse-acquisition-order sequence of
the initialized collaborators. -/
theorem teardown_order_counterexample :
    (app_main_setup ⟨0, 0, 0, 1⟩).1 = false ∧
    (app_main_setup ⟨0, 0, 0, 1⟩).2 = [.bno055, .m20048, .photoresist] ∧
    Collab.led ∉ (app_main_setup ⟨0, 0, 0, 1⟩).2 ∧
    (app_main_teardown ⟨0, 0, 0, 0, 0⟩).map Prod.fst =
      [.bno055, .m20048, .m20048, .photoresist, .led] ∧
    Collab.led ∈ (app_main_teardown ⟨0, 0, 0, 0, 0⟩).map Prod.fst ∧
    (app_main_teardown ⟨0, 0, 0, 0, 0⟩).map Prod.fst ≠
      [.photoresist, .m20048, .m20048, .bno055] := by
  decide

/-! ### Brightness mapper (C6, C7, C10) -/

/-- C6: the brightness map satisfies the spec's point values under the
exact formula: `map 500 = 102`, `map 100 = 102` (clamped to the 0.1 floor,
not negative), `map 150 = 102`, `map 3098 = 1023`, and `map 2450 = 767`
(not clamped to max). -/
theorem brightness_map_spec_points :
    raw_ADC_to_LED_val 500 = 102 ∧ raw_ADC_to_LED_val 100 = 102 ∧
    raw_ADC_to_LED_val 150 = 102 ∧ raw_ADC_to_LED_val 3098 = 1023 ∧
    raw_ADC_to_LED_val 2450 = 767 := by
  refine ⟨?_, ?_, ?_, ?_, ?_⟩ <;>
  · unfold raw_ADC_to_LED_val truncToInt
    norm_num

/-- Closed form of `raw_ADC_to_LED_val`: floor of the doubly clamped
linear transform scaled by 1023 (the truncation toward zero is a floor
because the clamped value is at least 1/10 > 0). -/
theorem raw_ADC_to_LED_val_eq_floor (x : ℤ) :
    raw_ADC_to_LED_val x =
      ⌊max (1/10 : ℚ) (min 1 (((x : ℚ) - 500) / 2598)) * 1023⌋ := by
  unfold raw_ADC_to_LED_val truncToInt
  dsimp only
  set t : ℚ := ((x : ℚ) - 500) / 2598 with ht
  have h1 : (if t > 1 then (1 : ℚ) else t) = min 1 t := by
    split_ifs with h
    · exact (min_eq_left h.le).symm
    · exact (min_eq_right (not_lt.mp h)).symm
  rw [h1]
  have h2 : (if min 1 t < 1/10 then (1 : ℚ)/10 else min 1 t) = max (1/10) (min 1 t) := by
    split_ifs with h
    · exact (max_eq_left h.le).symm
    · exact (max_eq_right (not_lt.mp h)).symm
  rw [h2, if_pos]
  positivity

/-- C7: `raw_ADC_to_LED_val` is monotone non-decreasing over all integer
light readings. -/
theorem brightness_map_monotone (a b : ℤ) (h : a ≤ b) :
    raw_ADC_to_LED_val a ≤ raw_ADC_to_LED_val b := by
  rw [raw_ADC_to_LED_val_eq_floor, raw_ADC_to_LED_val_eq_floor]
  have hab : ((a : ℚ) - 500) / 2598 ≤ ((b : ℚ) - 500) / 2598 := by
    have : (a : ℚ) ≤ (b : ℚ) := Int.cast_le.mpr h
    apply div_le_div_of_nonneg_right _ (by norm_num)
    linarith
  exact Int.floor_le_floor
    (mul_le_mul_of_nonneg_right (max_le_max le_rfl (min_le_min le_rfl hab)) (by norm_num))

/-- Witness for C7 at the spec's nominal sensor range endpoints. -/
theorem brightness_map_monotone_witness :
    (100 : ℤ) ≤ 2450 ∧ raw_ADC_to_LED_val 100 ≤ raw_ADC_to_LED_val 2450 :=
  ⟨by decide, brightness_map_monotone 100 2450 (by decide)⟩

/-- C10: `raw_ADC_to_LED_val` is total over ℤ and always lands in
`[102, 1023]`; every reading below 760 (the whole `t < 0.1` region,
arbitrarily negative readings included) yields exactly 102, and every
reading at or above 3098 yields exactly 1023. -/
theorem brightness_map_range (x : ℤ) :
    (102 ≤ raw_ADC_to_LED_val x ∧ raw_ADC_to_LED_val x ≤ 1023) ∧
    (x < 760 → raw_ADC_to_LED_val x = 102) ∧
    (3098 ≤ x → raw_ADC_to_LED_val x = 1023) := by
  rw [raw_ADC_to_LED_val_eq_floor]
  set t : ℚ := ((x : ℚ) - 500) / 2598 with ht
  have hub : max (1/10 : ℚ) (min 1 t) ≤ 1 := max_le (by norm_num) (min_le_left _ _)
  have hlb : (1/10 : ℚ) ≤ max (1/10) (min 1 t) := le_max_left _ _
  refine ⟨⟨?_, ?_⟩, ?_, ?_⟩
  · calc (102 : ℤ) = ⌊(1/10 : ℚ) * 1023⌋ := by norm_num
      _ ≤ _ := Int.floor_le_floor (mul_le_mul_of_nonneg_right hlb (by norm_num))
  · calc ⌊max (1/10 : ℚ) (min 1 t) * 1023⌋
        ≤ ⌊(1 : ℚ) * 1023⌋ := Int.floor_le_floor (mul_le_mul_of_nonneg_right hub (by norm_num))
      _ = 1023 := by norm_num
  · intro hx
    have hxq : (x : ℚ) ≤ 759 := by exact_mod_cast Int.lt_add_one_iff.mp hx
    have h1 : t < 1/10 := by
      rw [ht, div_lt_iff₀ (by norm_num : (0 : ℚ) < 2598)]
      linarith
    rw [min_eq_right (by linarith : t ≤ 1), max_eq_left h1.le]
    norm_num
  · intro hx
    have hxq : (3098 : ℚ) ≤ (x : ℚ) := by exact_mod_cast hx
    have h1 : (1 : ℚ) ≤ t := by
      rw [ht, le_div_iff₀ (by norm_num : (0 : ℚ) < 2598)]
      linarith
    rw [min_eq_left h1, max_eq_right (by norm_num : (1 : ℚ)/10 ≤ 1)]
    norm_num

/-- Witness for C10 at readings -50 (negative) and 4000 (above 3098). -/
theorem brightness_map_range_witness :
    ((-50 : ℤ) < 760 ∧ raw_ADC_to_LED_val (-50) = 102) ∧
    ((3098 : ℤ) ≤ 4000 ∧ raw_ADC_to_LED_val 4000 = 1023) ∧
    102 ≤ raw_ADC_to_LED_val 0 :=
  ⟨⟨by decide, (brightness_map_range (-50)).2.1 (by decide)⟩,
   ⟨by decide, (brightness_map_range 4000).2.2 (by decide)⟩,
   (brightness_map_range 0).1.1⟩
